import Mathlib

/-!
Shallow embedding of `src/anki.py` (signingsavvy_flashcards): the
synchronization pipeline that turns SigningSavvy word/sentence payloads into
Anki note payloads via AnkiConnect.

Conventions of the embedding:
* Python exceptions that escape a function are modelled with `Except String`:
  an `Except.error` value stands for a raised exception, and, as in the
  source (which has no try/except around the sync loops), errors propagate
  through the folds that model the loops.
* The AnkiConnect HTTP transport is abstracted away: `invokeValidate` models
  the envelope validation that `invoke` performs on the decoded JSON
  response (a Python dict, modelled as an association list of keys/values),
  and the note payload handed to `invoke(action="addNote", note=...)` is
  modelled as the `Note` structure that `addNotePayload` builds.
* Network fetches are modelled by a `WordWorld` environment mapping request
  paths to results: `none` stands for `fetch` swallowing a transport error
  and returning Python `None`; `Payload.malformed` stands for a payload that
  decodes but does not have the expected top-level shape (so that attribute
  access on the parsed `SimpleNamespace` raises); `Payload.good` carries a
  structurally valid payload.
-/

namespace SigningSavvy

/-- A JSON value stored in a slot of the AnkiConnect response envelope.
Only the distinction between `null` and anything else matters to the code,
so the embedding keeps values opaque apart from `null`. -/
inductive JVal where
  | null : JVal
  | str : String → JVal
  deriving DecidableEq, Repr

/-- The decoded AnkiConnect response: a JSON object, i.e. a Python dict,
modelled as an association list (key order is irrelevant; a real dict has
no duplicate keys, which theorems assume via `Nodup`). -/
abbrev Envelope := List (String × JVal)

/-- Python's `key in res` / `res[key]` on the decoded dict. -/
def getKeyVal (res : Envelope) (k : String) : Option JVal :=
  (res.find? (fun p => p.1 == k)).map Prod.snd

/-- The response-envelope validation in `invoke` (src/anki.py:115-122):
`len(res) != 2` raises, a missing `error` key raises, a missing `result`
key raises, otherwise `res["result"]` is returned — the value of the
`error` slot is never inspected. -/
def invokeValidate (res : Envelope) : Except String JVal :=
  if res.length ≠ 2 then Except.error "Unexpected number of fields."
  else if (getKeyVal res "error").isNone then Except.error "Missing required error field."
  else
    match getKeyVal res "result" with
    | none => Except.error "Missing required result field."
    | some v => Except.ok v

/-- One usage example of a variant, `{english, asl}`; either field may be
missing from the JSON, in which case attribute access on the parsed
`SimpleNamespace` raises. -/
structure UsageExample where
  english : Option String
  asl : Option String
  deriving DecidableEq, Repr

/-- One variant of a word detail payload (`/sign/{uri}`):
`{desc, type, aid, video, usage}`. -/
structure Variant where
  desc : String
  type : String
  aid : String
  video : String
  usage : List UsageExample
  deriving DecidableEq, Repr

/-- A word detail payload: `{id, name, clarification, variants}`. -/
structure WordDetail where
  id : String
  name : String
  clarification : String
  variants : List Variant
  deriving DecidableEq, Repr

/-- One entry of `signs.search_results` in a `/browse/{letter}` payload. -/
structure SearchResult where
  uri : String
  deriving DecidableEq, Repr

/-- One glossary entry of a sentence detail payload. -/
structure GlossEntry where
  id : String
  name : String
  deriving DecidableEq, Repr

/-- A sentence detail payload (`/sentence/{uri}`):
`{id, english, category, asl, video, glossary}`. -/
structure SentenceDetail where
  id : String
  english : String
  category : String
  asl : String
  video : String
  glossary : List GlossEntry
  deriving DecidableEq, Repr

/-- The `video` attachment descriptor of an AnkiConnect note payload. -/
structure MediaRef where
  url : String
  filename : String
  fields : List String
  deriving DecidableEq, Repr

/-- The note payload handed to `invoke(action="addNote", note=...)`. -/
structure Note where
  deckName : String
  modelName : String
  front : String
  back : String
  tags : List String
  video : List MediaRef
  deriving DecidableEq, Repr

/-- The `data` dict handed to `addNote`. The `word` dict built in
`addAllWords` carries a `variantId` key; the `sentence` dict built in
`addAllSentences` does not, so the field is an `Option`: accessing a
missing key raises `KeyError`. -/
structure NoteData where
  id : String
  variantId : Option String
  content : String
  extra : String
  mind : String
  type : String
  video : String
  deriving DecidableEq, Repr

/-- Deck name for words (global `dWords`). -/
def dWords : String := "nonfiction::asl::words"

/-- Deck name for sentences (global `dSentences`). -/
def dSentences : String := "nonfiction::asl::sentences"

/-- Global `ssbase`. -/
def ssbase : String := "https://www.signingsavvy.com"

/-- The `extra` f-string built at the top of `addNote`. -/
def noteExtra (data : NoteData) : String :=
  "\n" ++ data.extra ++ "\n<br />\nMemory aid: " ++ data.mind ++ "\n"

/-- The pure part of `addNote` (src/anki.py:125-169): the note payload
built and handed to `invoke`. Building the payload accesses
`data["variantId"]` (tags and media filename), which raises `KeyError`
when the key is absent. -/
def addNotePayload (data : NoteData) (deck : String) (front : Bool) : Except String Note :=
  match data.variantId with
  | none => Except.error "KeyError: 'variantId'"
  | some vid =>
    Except.ok
      { deckName := deck
        modelName := "Basic"
        front := if front then data.content else "Video: "
        back := if front then noteExtra data
                else data.content ++ "<br /><br />" ++ noteExtra data
        tags := ["asl::" ++ data.type ++ "-id::" ++ data.id,
                 "asl::" ++ data.type ++ "-variant-id::" ++ vid]
        video := [{ url := data.video
                    filename := data.id ++ vid ++ ".mp4"
                    fields := [if front then "Back" else "Front"] }] }

/-- One iteration of the usage-example loop (src/anki.py:238-243).
The loop body appends the English line, then appends the ASL line; the
f-string for a missing attribute raises *before* its own append, so a
missing `english` contributes nothing while a missing `asl` leaves the
already-appended English line in place (the bare `except` then appends
the empty string). -/
def usageLine (acc : String) (e : UsageExample) : String :=
  match e.english with
  | none => acc
  | some en =>
    match e.asl with
    | none => acc ++ "English: " ++ en ++ "<br />"
    | some a => acc ++ "English: " ++ en ++ "<br />" ++ "ASL: " ++ a ++ "<br /><br />"

/-- The `usage` accumulator built by the usage-example loop. -/
def usageBlock (l : List UsageExample) : String :=
  l.foldl usageLine ""

/-- The `word` dict built for variant index `i` (0-based) in `addAllWords`
(src/anki.py:245-253). -/
def mkWordData (info : WordDetail) (i : Nat) (v : Variant) (hq : String) : NoteData :=
  { id := info.id
    variantId := some (Nat.repr (i + 1))
    content := info.name ++ " (" ++ info.clarification ++ ") - " ++ Nat.repr (i + 1)
    extra := "Description: " ++ v.desc ++ "<br /><br />Type: " ++ v.type
               ++ "<br /><br />Usage:<br />" ++ usageBlock v.usage
    mind := v.aid
    type := "word"
    video := ssbase ++ "/media/mp4-" ++ hq ++ "/" ++ v.video }

/-- The two `addNote` calls issued for one processed variant
(src/anki.py:255-256): first `front=True`, then `front=False`. -/
def wordVariantNotes (info : WordDetail) (i : Nat) (v : Variant) (hq : String) :
    Except String (List Note) :=
  match addNotePayload (mkWordData info i v hq) dWords true with
  | Except.error e => Except.error e
  | Except.ok n1 =>
    match addNotePayload (mkWordData info i v hq) dWords false with
    | Except.error e => Except.error e
    | Except.ok n2 => Except.ok [n1, n2]

/-- A loop that runs `body` on each item in order, concatenating the note
payloads issued; the first uncaught exception ends the loop (the source
has no try/except around any of the sync loop bodies). -/
def noteLoop {α : Type} (body : α → Except String (List Note)) :
    List α → List Note → Except String (List Note)
  | [], acc => Except.ok acc
  | x :: rest, acc =>
    match body x with
    | Except.error e => Except.error e
    | Except.ok ns => noteLoop body rest (acc ++ ns)

/-- The body of `for i in range(len(info.variants) - 1)`
(src/anki.py:234-256): look up variant `i` and issue its two notes. -/
def variantBody (info : WordDetail) (hq : String) (i : Nat) :
    Except String (List Note) :=
  match info.variants[i]? with
  | none => Except.error "IndexError: list index out of range"
  | some v => wordVariantNotes info i v hq

/-- The variant loop of `addAllWords` for one fetched word detail:
`for i in range(len(info.variants) - 1)` — note the `- 1`. Returns the
sequence of note payloads issued for this word. -/
def processWord (info : WordDetail) (hq : String) : Except String (List Note) :=
  noteLoop (variantBody info hq) (List.range (info.variants.length - 1)) []

/-- Spec-side comparator (not in the source): the same variant loop but
ranging over *every* variant of its argument. `processWord` is compared
with `processAllVariants` applied to the first `n - 1` variants to state
that exactly those variants are processed. -/
def processAllVariants (info : WordDetail) (hq : String) : Except String (List Note) :=
  noteLoop (variantBody info hq) (List.range info.variants.length) []

/-- The `gloss` accumulator of `addAllSentences` (src/anki.py:277-283):
seeded with `"<br />"`, one line per glossary entry, reset to the empty
string if no entry was appended. -/
def glossBlock (l : List GlossEntry) : String :=
  let g := l.foldl (fun acc e => acc ++ e.id ++ ": " ++ e.name ++ "<br />") "<br />"
  if g = "<br />" then "" else g

/-- The `sentence` dict built in `addAllSentences` (src/anki.py:285-292).
It has no `"variantId"` key. -/
def mkSentenceData (info : SentenceDetail) (hq : String) : NoteData :=
  { id := info.id
    variantId := none
    content := info.english
    extra := "Category: " ++ info.category ++ "<br /><br />ASL: " ++ info.asl
               ++ "<br /><br />Glossary:<br />" ++ glossBlock info.glossary
    mind := ""
    type := "sentence"
    video := ssbase ++ "/media/mp4-" ++ hq ++ "/" ++ info.video }

/-- The two `addNote` calls issued for one sentence
(src/anki.py:294-295). -/
def sentenceNotes (info : SentenceDetail) (hq : String) : Except String (List Note) :=
  match addNotePayload (mkSentenceData info hq) dSentences true with
  | Except.error e => Except.error e
  | Except.ok n1 =>
    match addNotePayload (mkSentenceData info hq) dSentences false with
    | Except.error e => Except.error e
    | Except.ok n2 => Except.ok [n1, n2]

/-- The maximal trailing run of decimal digits of a string: what the
regex `\d+$` matches. -/
def trailingDigits (s : String) : List Char :=
  (s.data.reverse.takeWhile Char.isDigit).reverse

/-- `re.findall(r"\d+$", uri)[0]` (src/anki.py:228): the single match when
the uri ends in a digit, otherwise indexing the empty match list raises
`IndexError`. -/
def extractId (uri : String) : Except String String :=
  if trailingDigits uri = [] then Except.error "IndexError: list index out of range"
  else Except.ok (String.mk (trailingDigits uri))

/-- Result of `fetch` followed by shape-sensitive use of `parse`:
`Payload.malformed` is a payload that decodes but lacks the expected
top-level structure. -/
inductive Payload (α : Type) where
  | malformed : Payload α
  | good : α → Payload α

/-- `parse(fetch(...))` followed by access to the expected attributes.
`fetch` returning `None` makes `json.loads` raise `TypeError`; a
structurally invalid payload makes attribute access on the
`SimpleNamespace` raise `AttributeError`. Neither is caught anywhere in
the sync loops. -/
def parseFetched {α : Type} : Option (Payload α) → Except String α
  | none => Except.error "TypeError: the JSON object must be str, bytes or bytearray, not NoneType"
  | some Payload.malformed => Except.error "AttributeError: missing expected attribute"
  | some (Payload.good a) => Except.ok a

/-- Environment of the word-sync phase: the tag snapshot returned by
`invoke(action="getTags")` and the responses of the local SigningSavvy
facade for `/browse/{letter}` and `/sign/{uri}`. -/
structure WordWorld where
  tags : List String
  browse : Char → Option (Payload (List SearchResult))
  sign : String → Option (Payload WordDetail)

/-- Processing of one search result in `addAllWords` (src/anki.py:227-256):
extract the trailing digits of the uri, skip the word if
`asl::word-id::{id}` is in the tag snapshot, otherwise fetch the word
detail and run the variant loop. -/
def processResult (w : WordWorld) (hq : String) (r : SearchResult) :
    Except String (List Note) :=
  match extractId r.uri with
  | Except.error e => Except.error e
  | Except.ok wid =>
    if ("asl::word-id::" ++ wid) ∈ w.tags then Except.ok []
    else
      match parseFetched (w.sign r.uri) with
      | Except.error e => Except.error e
      | Except.ok info => processWord info hq

/-- Processing of one letter bucket in `addAllWords` (src/anki.py:222-256):
fetch the browse page and process each search result in order.  There is
no try/except around the body, so an error in any item ends the fold. -/
def processLetter (w : WordWorld) (hq : String) (c : Char) :
    Except String (List Note) :=
  match parseFetched (w.browse c) with
  | Except.error e => Except.error e
  | Except.ok results => noteLoop (processResult w hq) results []

/-- `list("abcdefghijklmnopqrstuvwxyz")`. -/
def letters : List Char := "abcdefghijklmnopqrstuvwxyz".data

/-- The whole word-sync phase `addAllWords` (src/anki.py:210-256), given
the environment: the sequence of note payloads issued, or the first
uncaught exception. -/
def addAllWordsRun (w : WordWorld) (hq : String) : Except String (List Note) :=
  noteLoop (processLetter w hq) letters []

/-- Concrete variant used by the concrete scenarios below. -/
def vX : Variant := ⟨"D1", "T1", "A1", "v1.mp4", [⟨some "Hi", some "HELLO"⟩]⟩

/-- Concrete word detail with two variants (so exactly one is processed). -/
def infoHello : WordDetail := ⟨"42", "HELLO", "greeting", [vX, vX]⟩

/-- Concrete environment for the error-propagation scenario: letter `a`
lists two search results; the detail fetch for `sign/1` fails (transport
error, `fetch` returns `None`) while `sign/2` is fine. -/
def failWorld : WordWorld :=
  { tags := []
    browse := fun c =>
      if c = 'a' then some (Payload.good [⟨"sign/1"⟩, ⟨"sign/2"⟩])
      else some (Payload.good [])
    sign := fun u => if u = "sign/2" then some (Payload.good infoHello) else none }

/-- Concrete environment for the dedup scenario: the tag snapshot already
holds `asl::word-id::7`. -/
def skipWorld : WordWorld :=
  { tags := ["asl::word-id::7"]
    browse := fun _ => none
    sign := fun _ => none }

/-- Concrete word detail whose `id` field (99) differs from the trailing
digits of the search-result uri that reaches it (7). -/
def infoNinetyNine : WordDetail := ⟨"99", "WORD", "c", [vX, vX]⟩

/-- Concrete environment for the dedup-key scenario: the snapshot holds
the tag for the *detail* id 99, not for the uri digits 7. -/
def mismatchWorld : WordWorld :=
  { tags := ["asl::word-id::99"]
    browse := fun _ => none
    sign := fun u => if u = "sign/7" then some (Payload.good infoNinetyNine) else none }

/-- Concrete word detail with id `"1"` (filename-collision scenario). -/
def infoIdOne : WordDetail := ⟨"1", "A", "c", [vX]⟩

/-- Concrete word detail with id `"12"` (filename-collision scenario). -/
def infoIdTwelve : WordDetail := ⟨"12", "B", "c", [vX]⟩

/-! ### Helper lemmas -/

/-- `wordVariantNotes` always succeeds and issues exactly two payloads:
the word dict always carries a `variantId` key. -/
theorem wordVariantNotes_ok (info : WordDetail) (i : Nat) (v : Variant) (hq : String) :
    ∃ n1 n2, wordVariantNotes info i v hq = Except.ok [n1, n2] :=
  ⟨_, _, rfl⟩

/-- A `noteLoop` whose body always issues exactly two payloads succeeds
with `2 · |l|` new payloads. -/
theorem noteLoop_pairs {α : Type} (body : α → Except String (List Note)) :
    ∀ (l : List α) (acc : List Note),
      (∀ x ∈ l, ∃ n1 n2, body x = Except.ok [n1, n2]) →
      ∃ ns, noteLoop body l acc = Except.ok ns ∧ ns.length = acc.length + 2 * l.length := by
  intro l
  induction l with
  | nil => exact fun acc _ => ⟨acc, rfl, by simp⟩
  | cons x rest ih =>
    intro acc hb
    obtain ⟨n1, n2, hx⟩ := hb x (by simp)
    obtain ⟨ns, hns, hlen⟩ := ih (acc ++ [n1, n2]) (fun y hy => hb y (by simp [hy]))
    refine ⟨ns, ?_, ?_⟩
    · simp only [noteLoop, hx]
      exact hns
    · have hacc : (acc ++ [n1, n2]).length = acc.length + 2 := by simp
      rw [hacc] at hlen
      simp only [List.length_cons]
      omega

/-- Two `noteLoop`s agree when their bodies agree on the traversed list. -/
theorem noteLoop_congr {α : Type} (b1 b2 : α → Except String (List Note)) :
    ∀ (l : List α) (acc : List Note),
      (∀ x ∈ l, b1 x = b2 x) → noteLoop b1 l acc = noteLoop b2 l acc := by
  intro l
  induction l with
  | nil => intro acc _; rfl
  | cons x rest ih =>
    intro acc hb
    have hx : b1 x = b2 x := hb x (by simp)
    simp only [noteLoop, hx]
    cases b2 x with
    | error e => rfl
    | ok ns => exact ih (acc ++ ns) (fun y hy => hb y (by simp [hy]))

/-- A successful key lookup means the key occurs in the envelope. -/
theorem getKeyVal_some_mem {res : Envelope} {k : String} {v : JVal}
    (h : getKeyVal res k = some v) : k ∈ res.map Prod.fst := by
  unfold getKeyVal at h
  cases hf : res.find? (fun p => p.1 == k) with
  | none => rw [hf] at h; cases h
  | some p =>
    have hpk : p.1 = k := by simpa using List.find?_some hf
    have hmem : p ∈ res := List.mem_of_find?_eq_some hf
    rw [← hpk]
    exact List.mem_map_of_mem Prod.fst hmem

/-- A key occurring in the envelope is found by the lookup. -/
theorem getKeyVal_isSome_of_mem {res : Envelope} {k : String}
    (h : k ∈ res.map Prod.fst) : (getKeyVal res k).isSome = true := by
  obtain ⟨p, hp, hfst⟩ := List.mem_map.1 h
  unfold getKeyVal
  rw [Option.isSome_map', List.find?_isSome]
  exact ⟨p, hp, by simp [hfst]⟩

/-- A list of length two containing two distinct elements is a
permutation of the pair. -/
theorem pair_perm_of_mem {α : Type} [DecidableEq α] {l : List α} {a b : α}
    (hlen : l.length = 2) (ha : a ∈ l) (hb : b ∈ l) (hab : a ≠ b) :
    l.Perm [a, b] := by
  have hsub : [a, b] ⊆ l := by
    intro x hx
    rcases List.mem_cons.1 hx with rfl | hx'
    · exact ha
    · rw [List.mem_singleton.1 hx']; exact hb
  have hnd : ([a, b] : List α).Nodup := by simp [hab]
  exact ((hnd.subperm hsub).perm_of_length_le (by simp [hlen])).symm

/-- A well-formed envelope (keys a permutation of `error`, `result`) is
one of the two explicit two-entry association lists. -/
theorem envelope_shape {res : Envelope}
    (h : (res.map Prod.fst).Perm ["error", "result"]) :
    ∃ v1 v2, res = [("error", v1), ("result", v2)]
      ∨ res = [("result", v2), ("error", v1)] := by
  have hlen : res.length = 2 := by simpa using h.length_eq
  match res, hlen with
  | [(k1, v1), (k2, v2)], _ =>
    have hperm : ([k1, k2] : List String).Perm ["error", "result"] := by simpa using h
    have h1 : k1 ∈ ["error", "result"] := hperm.subset (by simp)
    have h2 : k2 ∈ ["error", "result"] := hperm.subset (by simp)
    have hnd : ([k1, k2] : List String).Nodup := hperm.nodup_iff.mpr (by decide)
    have hne : k1 ≠ k2 := by simpa using hnd
    rcases (by simpa using h1 : k1 = "error" ∨ k1 = "result") with rfl | rfl
    · rcases (by simpa using h2 : k2 = "error" ∨ k2 = "result") with rfl | rfl
      · exact absurd rfl hne
      · exact ⟨v1, v2, Or.inl rfl⟩
    · rcases (by simpa using h2 : k2 = "error" ∨ k2 = "result") with rfl | rfl
      · exact ⟨v2, v1, Or.inr rfl⟩
      · exact absurd rfl hne

/-- The front-card content string always contains an opening parenthesis,
so it is never the placeholder `"Video: "`. -/
theorem content_has_no_placeholder (a b k : String) :
    a ++ " (" ++ b ++ ") - " ++ k ≠ "Video: " := by
  intro h
  have base : '(' ∈ " (".data := by decide
  have m1 : '(' ∈ (a ++ " (").data := by
    rw [String.data_append]; exact List.mem_append.2 (Or.inr base)
  have m2 : '(' ∈ (a ++ " (" ++ b).data := by
    rw [String.data_append]; exact List.mem_append.2 (Or.inl m1)
  have m3 : '(' ∈ (a ++ " (" ++ b ++ ") - ").data := by
    rw [String.data_append]; exact List.mem_append.2 (Or.inl m2)
  have m4 : '(' ∈ (a ++ " (" ++ b ++ ") - " ++ k).data := by
    rw [String.data_append]; exact List.mem_append.2 (Or.inl m3)
  rw [h] at m4
  exact absurd m4 (by decide)

/-- Cancel a common prefix and a common suffix of a string equation. -/
theorem string_append_cancel (x a b s : String) (h : x ++ a ++ s = x ++ b ++ s) :
    a = b := by
  have hd := congrArg String.data h
  simp only [String.data_append] at hd
  have h1 := List.append_cancel_right hd
  have h2 := List.append_cancel_left h1
  cases a; cases b
  exact congrArg String.mk h2

/-! ### Claim theorems -/

/-- C1: the variant loop of the word-sync phase ranges over
`range(len(variants) - 1)`, so it processes exactly the first `n - 1`
variants (it behaves as if the last variant were removed) and issues two
note payloads per processed variant, hence `2 · (n - 1)` payloads in
total; with `n = 1` zero variants are processed and with `n = 3` two. -/
theorem word_loop_processes_first_pred_variants (info : WordDetail) (hq : String) :
    processWord info hq =
      processAllVariants
        ⟨info.id, info.name, info.clarification,
          info.variants.take (info.variants.length - 1)⟩ hq ∧
    ∃ ns, processWord info hq = Except.ok ns ∧
      ns.length = 2 * (info.variants.length - 1) := by
  constructor
  · unfold processWord processAllVariants
    have hlen : (info.variants.take (info.variants.length - 1)).length
        = info.variants.length - 1 := by
      rw [List.length_take]; omega
    show noteLoop (variantBody info hq) (List.range (info.variants.length - 1)) []
       = noteLoop
           (variantBody
             ⟨info.id, info.name, info.clarification,
               info.variants.take (info.variants.length - 1)⟩ hq)
           (List.range (info.variants.take (info.variants.length - 1)).length) []
    rw [hlen]
    apply noteLoop_congr
    intro i hi
    have hi' : i < info.variants.length - 1 := List.mem_range.1 hi
    have hget : (info.variants.take (info.variants.length - 1))[i]? = info.variants[i]? := by
      rw [List.getElem?_take]; exact if_pos hi'
    dsimp only [variantBody]
    rw [hget]
    cases info.variants[i]? with
    | none => rfl
    | some v => rfl
  · have hb : ∀ i ∈ List.range (info.variants.length - 1),
        ∃ n1 n2, variantBody info hq i = Except.ok [n1, n2] := by
      intro i hi
      have hi' : i < info.variants.length := by
        have := List.mem_range.1 hi; omega
      obtain ⟨n1, n2, hw⟩ := wordVariantNotes_ok info i info.variants[i] hq
      refine ⟨n1, n2, ?_⟩
      dsimp only [variantBody]
      rw [List.getElem?_eq_getElem hi']
      exact hw
    obtain ⟨ns, hns, hlen⟩ :=
      noteLoop_pairs (variantBody info hq) (List.range (info.variants.length - 1)) [] hb
    refine ⟨ns, hns, ?_⟩
    simpa [List.length_range] using hlen

/-- C2 counterexample: in `failWorld` the detail fetch for the first
search result of letter `a` fails, and the whole run aborts with the
uncaught `TypeError` from `json.loads(None)` — even though the second
search result on its own would have produced two note payloads. The run
does *not* continue with the next frontier item. -/
theorem run_aborts_on_single_bad_item_cex :
    addAllWordsRun failWorld "hd"
      = Except.error "TypeError: the JSON object must be str, bytes or bytearray, not NoneType" ∧
    (processResult failWorld "hd" ⟨"sign/2"⟩).map List.length = Except.ok 2 :=
  ⟨rfl, rfl⟩

/-- C2 amended: a frontier item whose fetched payload is absent or
structurally invalid raises an uncaught exception in `processResult`
(provided the item is not dedup-skipped first), and such an exception
propagates: it ends the letter's result loop and then the whole run, so
no later frontier item is processed. -/
theorem bad_item_error_propagates :
    (∀ (w : WordWorld) (hq : String) (r : SearchResult),
      (w.sign r.uri = none ∨ w.sign r.uri = some Payload.malformed) →
      (∀ t, extractId r.uri = Except.ok t → ("asl::word-id::" ++ t) ∉ w.tags) →
      (processResult w hq r).isOk = false) ∧
    (∀ (w : WordWorld) (hq : String) (c : Char) (r : SearchResult)
        (rest : List SearchResult) (e : String),
      parseFetched (w.browse c) = Except.ok (r :: rest) →
      processResult w hq r = Except.error e →
      processLetter w hq c = Except.error e) ∧
    (∀ (w : WordWorld) (hq : String) (e : String),
      processLetter w hq 'a' = Except.error e →
      addAllWordsRun w hq = Except.error e) := by
  refine ⟨?_, ?_, ?_⟩
  · intro w hq r hsign hext
    unfold processResult
    cases he : extractId r.uri with
    | error e => rfl
    | ok t =>
      have hnot : ("asl::word-id::" ++ t) ∉ w.tags := hext t he
      show (if ("asl::word-id::" ++ t) ∈ w.tags then Except.ok ([] : List Note)
            else match parseFetched (w.sign r.uri) with
              | Except.error e => Except.error e
              | Except.ok info => processWord info hq).isOk = false
      rw [if_neg hnot]
      rcases hsign with h | h <;> rw [h] <;> rfl
  · intro w hq c r rest e hb hr
    unfold processLetter
    rw [hb]
    simp only [noteLoop, hr]
  · intro w hq e h
    unfold addAllWordsRun
    have hl : letters = 'a' :: "bcdefghijklmnopqrstuvwxyz".data := rfl
    rw [hl]
    simp only [noteLoop, h]

/-- C2 witness: the amended theorem applied in `failWorld` to the item
whose detail fetch fails. -/
theorem bad_item_error_propagates_witness :
    failWorld.sign "sign/1" = none ∧
    (processResult failWorld "hd" ⟨"sign/1"⟩).isOk = false :=
  ⟨rfl,
    bad_item_error_propagates.1 failWorld "hd" ⟨"sign/1"⟩ (Or.inl rfl)
      (fun _ _ => List.not_mem_nil _)⟩

/-- C4: a word whose dedup tag `asl::word-id::{id}` is in the tag
snapshot is skipped entirely: its `continue` fires before the detail
fetch, so zero note payloads are issued for any of its variants. -/
theorem snapshot_tag_skips_word (w : WordWorld) (hq : String) (r : SearchResult)
    (wid : String) (hid : extractId r.uri = Except.ok wid)
    (htag : ("asl::word-id::" ++ wid) ∈ w.tags) :
    processResult w hq r = Except.ok [] := by
  unfold processResult
  rw [hid]
  exact if_pos htag

/-- C4 witness: in `skipWorld` the tag snapshot holds `asl::word-id::7`,
so the search result with uri `sign/7` produces zero payloads. -/
theorem snapshot_tag_skips_word_witness :
    extractId "sign/7" = Except.ok "7" ∧
    ("asl::word-id::" ++ "7") ∈ skipWorld.tags ∧
    processResult skipWorld "hd" ⟨"sign/7"⟩ = Except.ok [] :=
  ⟨rfl, List.mem_singleton.mpr rfl,
    snapshot_tag_skips_word skipWorld "hd" ⟨"sign/7"⟩ "7" rfl
      (List.mem_singleton.mpr rfl)⟩

/-- C10: the dedup key is the maximal trailing digit run of the
search-result uri — a uri with no trailing digit makes the id extraction
fail (`IndexError` on the empty match list), and, as `mismatchWorld`
shows, a snapshot tag for the *detail* id (99) does not cause a skip
when the uri digits (7) differ: the item is still processed and issues
two payloads. -/
theorem dedup_key_is_uri_trailing_digits :
    (∀ (w : WordWorld) (hq : String) (r : SearchResult),
      trailingDigits r.uri = [] →
      processResult w hq r = Except.error "IndexError: list index out of range") ∧
    "asl::word-id::99" ∈ mismatchWorld.tags ∧
    "asl::word-id::7" ∉ mismatchWorld.tags ∧
    (processResult mismatchWorld "hd" ⟨"sign/7"⟩).map List.length = Except.ok 2 := by
  refine ⟨?_, List.mem_singleton.mpr rfl, by decide, rfl⟩
  intro w hq r h
  unfold processResult extractId
  rw [if_pos h]

/-- C10 witness: a uri with no trailing digit aborts processing of the
item with the `IndexError`. -/
theorem dedup_key_is_uri_trailing_digits_witness :
    trailingDigits "sign/abc" = [] ∧
    processResult mismatchWorld "hd" ⟨"sign/abc"⟩
      = Except.error "IndexError: list index out of range" :=
  ⟨rfl, dedup_key_is_uri_trailing_digits.1 mismatchWorld "hd" ⟨"sign/abc"⟩ rfl⟩

/-- C5: `invoke` succeeds exactly when the response envelope has exactly
the two keys `error` and `result` (for a decoded JSON object, i.e. an
association list without duplicate keys): two entries and both keys
present is equivalent to the key multiset being exactly
`{error, result}`; missing or extra keys make the validation raise. -/
theorem store_envelope_exactly_two_keys (res : Envelope)
    (hnd : (res.map Prod.fst).Nodup) :
    (invokeValidate res).isOk = true ↔ (res.map Prod.fst).Perm ["error", "result"] := by
  constructor
  · intro hok
    by_cases hl : res.length ≠ 2
    · exfalso
      unfold invokeValidate at hok
      rw [if_pos hl] at hok
      exact absurd hok (by decide)
    · by_cases he : (getKeyVal res "error").isNone = true
      · exfalso
        unfold invokeValidate at hok
        rw [if_neg hl, if_pos he] at hok
        exact absurd hok (by decide)
      · cases hr : getKeyVal res "result" with
        | none =>
          exfalso
          unfold invokeValidate at hok
          rw [if_neg hl, if_neg he, hr] at hok
          exact absurd hok (by decide)
        | some v =>
          have hsome : (getKeyVal res "error").isSome = true := by
            cases hgv : getKeyVal res "error" with
            | none => rw [hgv] at he; exact absurd rfl he
            | some u => rfl
          obtain ⟨u, hu⟩ := Option.isSome_iff_exists.1 hsome
          have hmel : "error" ∈ res.map Prod.fst := getKeyVal_some_mem hu
          have hmr : "result" ∈ res.map Prod.fst := getKeyVal_some_mem hr
          have hlen2 : (res.map Prod.fst).length = 2 := by
            simpa using not_ne_iff.1 hl
          exact pair_perm_of_mem hlen2 hmel hmr (by decide)
  · intro hperm
    obtain ⟨v1, v2, hshape⟩ := envelope_shape hperm
    rcases hshape with rfl | rfl <;> rfl

/-- C5 witness: the exact envelope succeeds; one with a missing or an
extra key fails. -/
theorem store_envelope_exactly_two_keys_witness :
    (List.map Prod.fst [(("error" : String), JVal.null), ("result", JVal.str "ok")]).Nodup ∧
    (invokeValidate [("error", JVal.null), ("result", JVal.str "ok")]).isOk = true ∧
    (invokeValidate [("error", JVal.null), ("result", JVal.str "ok"), ("extra", JVal.null)]).isOk = false ∧
    (invokeValidate [("error", JVal.null)]).isOk = false :=
  ⟨by decide,
    (store_envelope_exactly_two_keys
      [("error", JVal.null), ("result", JVal.str "ok")] (by decide)).mpr (by decide),
    rfl, rfl⟩

/-- C9: on a well-formed envelope `invoke` returns the `result` slot
unconditionally — the value of the `error` slot is never inspected, so a
non-null store-reported error is not raised to the caller. -/
theorem wellformed_envelope_ignores_error_value (res : Envelope) (v : JVal)
    (hperm : (res.map Prod.fst).Perm ["error", "result"])
    (hres : getKeyVal res "result" = some v) :
    invokeValidate res = Except.ok v := by
  obtain ⟨v1, v2, hshape⟩ := envelope_shape hperm
  rcases hshape with rfl | rfl
  · have h2 : getKeyVal [("error", v1), ("result", v2)] "result" = some v2 := rfl
    rw [hres] at h2
    rw [Option.some_inj.1 h2]
    rfl
  · have h2 : getKeyVal [("result", v2), ("error", v1)] "result" = some v2 := rfl
    rw [hres] at h2
    rw [Option.some_inj.1 h2]
    rfl

/-- C9 witness: a well-formed envelope carrying a non-null `error` slot
still returns the `result` slot. -/
theorem wellformed_envelope_ignores_error_value_witness :
    getKeyVal [("error", JVal.str "store says no"), ("result", JVal.null)] "result"
      = some JVal.null ∧
    invokeValidate [("error", JVal.str "store says no"), ("result", JVal.null)]
      = Except.ok JVal.null :=
  ⟨rfl,
    wellformed_envelope_ignores_error_value
      [("error", JVal.str "store says no"), ("result", JVal.null)] JVal.null
      (by decide) rfl⟩

/-- C3 counterexample: at a concrete processed variant, *both* note
payloads of the pair carry the media attachment descriptor (each `video`
list has one element, and the count of payloads carrying a descriptor is
2, not 1); the placeholder `"Video: "` appears only in the second,
back-oriented payload. -/
theorem both_payloads_carry_media_cex :
    (wordVariantNotes infoHello 0 vX "hd").map
        (fun ns => ns.map (fun n => n.video.length)) = Except.ok [1, 1] ∧
    (wordVariantNotes infoHello 0 vX "hd").map
        (fun ns => ns.countP (fun n => !n.video.isEmpty)) = Except.ok 2 ∧
    (wordVariantNotes infoHello 0 vX "hd").map
        (fun ns => ns.map Note.front) = Except.ok ["HELLO (greeting) - 1", "Video: "] :=
  ⟨rfl, rfl, rfl⟩

/-- C3 amended: every processed variant yields exactly two note payloads;
*both* carry one media descriptor with the same url and filename, the
front-oriented payload targeting its `Back` field and the back-oriented
payload targeting its `Front` field; exactly one of the two (the
back-oriented one) carries the placeholder text `"Video: "` as its front
field. -/
theorem pair_media_on_opposite_sides (info : WordDetail) (i : Nat) (v : Variant)
    (hq : String) :
    ∃ n1 n2 u f,
      wordVariantNotes info i v hq = Except.ok [n1, n2] ∧
      n1.video = [⟨u, f, ["Back"]⟩] ∧
      n2.video = [⟨u, f, ["Front"]⟩] ∧
      n2.front = "Video: " ∧
      n1.front ≠ "Video: " := by
  refine ⟨_, _, ssbase ++ "/media/mp4-" ++ hq ++ "/" ++ v.video,
    info.id ++ Nat.repr (i + 1) ++ ".mp4", rfl, rfl, rfl, rfl, ?_⟩
  exact content_has_no_placeholder info.name info.clarification (Nat.repr (i + 1))

/-- C6 counterexample: a usage example with an `english` field but no
`asl` field contributes its orphaned English line to the usage block —
it is *not* dropped entirely: the first `usage +=` has already run when
the `asl` attribute access raises. -/
theorem missing_asl_keeps_english_cex :
    usageBlock [⟨some "Hi", none⟩] = "English: Hi<br />" ∧
    usageBlock [⟨some "Hi", none⟩] ≠ "" :=
  ⟨rfl, by decide⟩

/-- C6 amended: a usage example missing `asl` contributes exactly its
English half (the ASL half is dropped), one missing `english`
contributes nothing, and in either case card construction for the
surrounding variant still succeeds. -/
theorem lenient_usage_examples :
    (∀ (acc en : String),
      usageLine acc ⟨some en, none⟩ = acc ++ "English: " ++ en ++ "<br />") ∧
    (∀ (acc : String) (a : Option String), usageLine acc ⟨none, a⟩ = acc) ∧
    (∀ (info : WordDetail) (i : Nat) (v : Variant) (hq : String),
      ∃ ns, wordVariantNotes info i v hq = Except.ok ns) :=
  ⟨fun _ _ => rfl, fun _ _ => rfl, fun _ _ _ _ => ⟨_, rfl⟩⟩

/-- C7: the sentence dict has no `variantId` key, but `addNote` reads
`data["variantId"]` unconditionally (variant-id tag and media filename),
so building the note payload for *every* sentence raises `KeyError` and
zero sentence note payloads are ever produced. -/
theorem sentence_notes_raise_keyerror (info : SentenceDetail) (hq : String) :
    addNotePayload (mkSentenceData info hq) dSentences true
      = Except.error "KeyError: 'variantId'" ∧
    sentenceNotes info hq = Except.error "KeyError: 'variantId'" :=
  ⟨rfl, rfl⟩

/-- C8 counterexample: the filename map is not injective on
`(wordId, variantIndex)` pairs: word id `"1"` at variant index 23 and
word id `"12"` at variant index 3 both yield `123.mp4`. -/
theorem filename_collision_cex :
    (addNotePayload (mkWordData infoIdOne 22 vX "hd") dWords true).map
        (fun n => n.video.map MediaRef.filename) = Except.ok ["123.mp4"] ∧
    (addNotePayload (mkWordData infoIdTwelve 2 vX "hd") dWords true).map
        (fun n => n.video.map MediaRef.filename) = Except.ok ["123.mp4"] ∧
    (infoIdOne.id, 22 + 1) ≠ (infoIdTwelve.id, 2 + 1) :=
  ⟨rfl, rfl, by decide⟩

/-- C8 amended: both payloads of a processed variant carry the media
filename `{wordId}{variantIndex}.mp4` (plain concatenation), and for a
*fixed* word id the map from the variant-id string to the filename is
injective; across different word ids the pairs can collide. -/
theorem filename_is_concat_injective_per_word (info : WordDetail) (i : Nat)
    (v : Variant) (hq : String) :
    ((addNotePayload (mkWordData info i v hq) dWords true).map
        (fun n => n.video.map MediaRef.filename)
      = Except.ok [info.id ++ Nat.repr (i + 1) ++ ".mp4"]) ∧
    ((addNotePayload (mkWordData info i v hq) dWords false).map
        (fun n => n.video.map MediaRef.filename)
      = Except.ok [info.id ++ Nat.repr (i + 1) ++ ".mp4"]) ∧
    (∀ a b : String, info.id ++ a ++ ".mp4" = info.id ++ b ++ ".mp4" → a = b) :=
  ⟨rfl, rfl, fun a b h => string_append_cancel info.id a b ".mp4" h⟩

/-- C8 witness: the amended theorem at word id `"1"`, variant index 1. -/
theorem filename_is_concat_injective_per_word_witness :
    ((addNotePayload (mkWordData infoIdOne 0 vX "hd") dWords true).map
        (fun n => n.video.map MediaRef.filename) = Except.ok ["11.mp4"]) ∧
    ("9" : String) = "9" :=
  ⟨(filename_is_concat_injective_per_word infoIdOne 0 vX "hd").1,
    (filename_is_concat_injective_per_word infoIdOne 0 vX "hd").2.2 "9" "9" rfl⟩

end SigningSavvy
